import Mathlib

/-!
Shallow embedding of the `uniswap_pair` ink! contract of this repository
(`src/examples/uniswap/lib.rs`): an automated market-maker pair that holds
reserves of two tokens and offers `mint`, `burn`, `swap`, `skim` and `sync`
operations plus an internal receipt-token ledger.

Conventions of the embedding:

* `Balance` is the 128-bit unsigned integer type of ink!, embedded as `Nat`
  with explicit range checks against `2 ^ 128`.
* Arithmetic is checked: the build profile of the contract (its
  `Cargo.toml`) is not among the sources, and section 7 of the
  specification demands that overflow and underflow be reported, never
  silently wrapped.  Each `+`, `-`, `*`, `/` of the contract is therefore
  embedded as a checked operation that aborts the enclosing call with an
  arithmetic error when the result leaves the `u128` range (Rust semantics
  with `overflow-checks` enabled, as the spec mandates).
* `assert!(cond, msg)` aborts the transaction.  The host reverts every
  state change of an aborted call (spec section 7, all-or-nothing), so an
  operation is embedded as a function returning `Except Error World`:
  a `.error e` result means the call aborted and the chain state is
  exactly as before the call.
* The external erc20 token ledgers (crate `erc20`, not under `src/`) are
  modelled from the spec (section 4.4): only the pool's own holdings
  `bal0`/`bal1` of the two underlying tokens are tracked; `transfer_from`
  moving tokens out of the pool succeeds exactly when the holding
  suffices, and any ledger failure aborts the enclosing operation.
* The source reads the receipt-token supply via `self.lp_token`, a field
  that the storage struct does not declare, while `_mint`/`_burn` mutate
  the pool's own `total_supply`/`balances` fields; the embedding reads and
  writes the one receipt ledger the storage struct declares
  (`total_supply`, `balances`), which is the only self-consistent reading
  of the source.
* Events are an append-only audit sink external to the state (spec
  section 2) and are not modelled.
-/

namespace UniswapPair

/-- Word size bound of the ink! `Balance` type (`u128`). -/
def U128_MOD : Nat := 2 ^ 128

abbrev AccountId := Nat
abbrev Balance := Nat

/-- Error outcomes: one constructor per `assert!` / `Err` reason of the
source, plus the arithmetic aborts of checked `u128` arithmetic and the
`InvalidRecipient` / `ReentrancyDetected` reasons listed by the
specification's error taxonomy (section 7). -/
inductive Error where
  | AuthMismatch
  | InsufficientLiquidityMinted
  | InsufficientLiquidityBurned
  | InsufficientOutputAmount
  | InsufficientLiquidity
  | InvalidRecipient
  | InsufficientInputAmount
  | InvariantViolation
  | InsufficientBalance
  | InsufficientAllowance
  | ReentrancyDetected
  | ArithmeticUnderflow
  | ArithmeticOverflow
  | DivisionByZero
  deriving DecidableEq

/-- Checked `u128` subtraction: reports underflow instead of wrapping. -/
def checkedSub (a b : Balance) : Except Error Balance :=
  if b ≤ a then Except.ok (a - b) else Except.error Error.ArithmeticUnderflow

/-- Checked `u128` addition: reports overflow instead of wrapping. -/
def checkedAdd (a b : Balance) : Except Error Balance :=
  if a + b < U128_MOD then Except.ok (a + b) else Except.error Error.ArithmeticOverflow

/-- Checked `u128` multiplication: reports overflow instead of wrapping. -/
def checkedMul (a b : Balance) : Except Error Balance :=
  if a * b < U128_MOD then Except.ok (a * b) else Except.error Error.ArithmeticOverflow

/-- Checked `u128` division: Rust integer division panics on a zero
divisor, aborting the call. -/
def checkedDiv (a b : Balance) : Except Error Balance :=
  if b = 0 then Except.error Error.DivisionByZero else Except.ok (a / b)

/-- Source line 30: `const MINIMUM_LIQUIDITY: Balance = 10**3;`.  The
exponentiation is written with Python-style `**` (not valid Rust); the
spec fixes the intended value as `10 ^ 3 = 1000` and the claims use
`MINIMUM_LIQUIDITY = 1000`. -/
def MINIMUM_LIQUIDITY : Balance := 10 ^ 3

/-- Storage struct `Uniswap_pair` (source lines 32-48): owner, the two
token references (kept as their account ids), the cached reserves, and the
receipt-token ledger (`total_supply`, `balances`, `allowances`). -/
structure Pool where
  owner : AccountId
  token0 : AccountId
  token1 : AccountId
  reserve0 : Balance
  reserve1 : Balance
  total_supply : Balance
  balances : AccountId → Balance
  allowances : AccountId → AccountId → Balance

/-- World state seen by one call: the pool's storage, the pool's holdings
of the two underlying tokens in the external erc20 ledgers (what
`balance_of_or_zero(self_account_id)` returns), and the pool's own account
id (`self.env().account_id()`). -/
structure World where
  pool : Pool
  bal0 : Balance
  bal1 : Balance
  selfId : AccountId

/-- Source lines 380-385, `update`: unconditionally overwrite the reserves
with the given balances (the reserve parameters of the Rust function are
unused there as well). -/
def update (p : Pool) (balance0 balance1 : Balance) : Pool :=
  { p with reserve0 := balance0, reserve1 := balance1 }

/-- Source lines 373-378, `_mint`: credit `value` receipt units to `to`
and grow the total supply. -/
def mintTo (p : Pool) (toAcc : AccountId) (value : Balance) : Except Error Pool :=
  Except.bind (checkedAdd (p.balances toAcc) value) fun nb =>
  Except.bind (checkedAdd p.total_supply value) fun ts =>
  Except.ok { p with balances := Function.update p.balances toAcc nb, total_supply := ts }

/-- Source lines 366-371, `_burn`: debit `value` receipt units from `to`
and shrink the total supply. -/
def burnFrom (p : Pool) (toAcc : AccountId) (value : Balance) : Except Error Pool :=
  Except.bind (checkedSub (p.balances toAcc) value) fun nb =>
  Except.bind (checkedSub p.total_supply value) fun ts =>
  Except.ok { p with balances := Function.update p.balances toAcc nb, total_supply := ts }

/-- Modelled from the spec: `transfer_from(self, to, value)` of the
external erc20 crate (not under `src/`), moving `value` of a token out of
the pool; per spec section 4.4 it succeeds or fails atomically and a
failure aborts the enclosing operation.  It fails exactly when the pool's
holding is insufficient. -/
def transferOut (bal value : Balance) : Except Error Balance :=
  if value ≤ bal then Except.ok (bal - value) else Except.error Error.InsufficientBalance

/-- Source lines 211-221: the computed swap input for one side,
`if balance > reserve - amountOut { balance - (reserve - amountOut) } else { 0 }`. -/
def computedIn (balance reserve amountOut : Balance) : Balance :=
  if reserve - amountOut < balance then balance - (reserve - amountOut) else 0

/-- Source lines 132-159, `mint(to)`: read the pool's token balances,
derive the deposited amounts against the reserves, compute the liquidity
(geometric mean minus `MINIMUM_LIQUIDITY` on bootstrap, the more
constraining reserve ratio otherwise; `math::sqrt`/`math::min` are not
under `src/` and are modelled from the spec as floor square root and
minimum), require it positive, credit it to `to`, and update the
reserves.  On bootstrap, `MINIMUM_LIQUIDITY` units are first minted to the
pool's own account (source line 148). -/
def mint (w : World) (_caller toAcc : AccountId) : Except Error World :=
  Except.bind (checkedSub w.bal0 w.pool.reserve0) fun amount0 =>
  Except.bind (checkedSub w.bal1 w.pool.reserve1) fun amount1 =>
  Except.bind
    (if w.pool.total_supply = 0 then
      Except.bind (checkedMul amount0 amount1) fun prod =>
      Except.bind (checkedSub (Nat.sqrt prod) MINIMUM_LIQUIDITY) fun liq =>
      Except.bind (mintTo w.pool w.selfId MINIMUM_LIQUIDITY) fun p =>
      Except.ok (liq, p)
    else
      Except.bind (checkedMul amount0 w.pool.total_supply) fun n0 =>
      Except.bind (checkedDiv n0 w.pool.reserve0) fun q0 =>
      Except.bind (checkedMul amount1 w.pool.total_supply) fun n1 =>
      Except.bind (checkedDiv n1 w.pool.reserve1) fun q1 =>
      Except.ok (Nat.min q0 q1, w.pool)) fun lp =>
  if 0 < lp.1 then
    Except.bind (mintTo lp.2 toAcc lp.1) fun p2 =>
    Except.ok { w with pool := update p2 w.bal0 w.bal1 }
  else Except.error Error.InsufficientLiquidityMinted

/-- Source lines 161-190, `burn(to)`: require `caller == to`, redeem the
whole receipt balance of `to` pro rata against the pool's holdings, burn
the receipt units, pay out both tokens, re-read balances and update the
reserves. -/
def burn (w : World) (caller toAcc : AccountId) : Except Error World :=
  if caller = toAcc then
    Except.bind (checkedMul (w.pool.balances toAcc) w.bal0) fun n0 =>
    Except.bind (checkedDiv n0 w.pool.total_supply) fun amount0 =>
    Except.bind (checkedMul (w.pool.balances toAcc) w.bal1) fun n1 =>
    Except.bind (checkedDiv n1 w.pool.total_supply) fun amount1 =>
    if 0 < amount0 ∧ 0 < amount1 then
      Except.bind (burnFrom w.pool toAcc (w.pool.balances toAcc)) fun p =>
      Except.bind (transferOut w.bal0 amount0) fun b0 =>
      Except.bind (transferOut w.bal1 amount1) fun b1 =>
      Except.ok { w with pool := update p b0 b1, bal0 := b0, bal1 := b1 }
    else Except.error Error.InsufficientLiquidityBurned
  else Except.error Error.AuthMismatch

/-- Source lines 192-233, `swap(amount0Out, amount1Out, to)`: require some
output and both outputs below the reserves (the recipient check of source
line 197 is commented out in the source and therefore absent here),
optimistically transfer the outputs (`if amountOut` is Rust-invalid on a
`Balance`; the intended truthiness `amountOut > 0` is used), re-read the
balances — `dep0`/`dep1` model the tokens the flash-swap callback of spec
section 4.2 deposits into the pool before control returns — compute the
inputs, require the input guard exactly as written in source line 223
(`amount0In > 0 || amount1Out > 0`, sic), check the fee-adjusted constant
product, and update the reserves. -/
def swap (w : World) (_caller : AccountId) (amount0Out amount1Out : Balance)
    (_toAcc : AccountId) (dep0 dep1 : Balance) : Except Error World :=
  if 0 < amount0Out ∨ 0 < amount1Out then
    if amount0Out < w.pool.reserve0 ∧ amount1Out < w.pool.reserve1 then
      Except.bind (if 0 < amount0Out then transferOut w.bal0 amount0Out else Except.ok w.bal0)
        fun b0out =>
      Except.bind (if 0 < amount1Out then transferOut w.bal1 amount1Out else Except.ok w.bal1)
        fun b1out =>
      Except.bind (checkedAdd b0out dep0) fun balance0 =>
      Except.bind (checkedAdd b1out dep1) fun balance1 =>
      let amount0In := computedIn balance0 w.pool.reserve0 amount0Out
      let amount1In := computedIn balance1 w.pool.reserve1 amount1Out
      if 0 < amount0In ∨ 0 < amount1Out then
        Except.bind (checkedMul balance0 1000) fun t0 =>
        Except.bind (checkedMul amount0In 3) fun f0 =>
        Except.bind (checkedSub t0 f0) fun balance0Adjusted =>
        Except.bind (checkedMul balance1 1000) fun t1 =>
        Except.bind (checkedMul amount1In 3) fun f1 =>
        Except.bind (checkedSub t1 f1) fun balance1Adjusted =>
        Except.bind (checkedMul balance0Adjusted balance1Adjusted) fun lhs =>
        Except.bind (checkedMul w.pool.reserve0 w.pool.reserve1) fun rr =>
        Except.bind (checkedMul rr 1000) fun rr1 =>
        Except.bind (checkedMul rr1 1000) fun rhs =>
        if rhs ≤ lhs then
          Except.ok { w with pool := update w.pool balance0 balance1,
                             bal0 := balance0, bal1 := balance1 }
        else Except.error Error.InvariantViolation
      else Except.error Error.InsufficientInputAmount
    else Except.error Error.InsufficientLiquidity
  else Except.error Error.InsufficientOutputAmount

/-- Source lines 235-240, `skim(to)`: owner only; transfer the excess of
each holding over the recorded reserve out of the pool. -/
def skim (w : World) (caller _toAcc : AccountId) : Except Error World :=
  if caller = w.pool.owner then
    Except.bind (checkedSub w.bal0 w.pool.reserve0) fun a0 =>
    Except.bind (transferOut w.bal0 a0) fun b0 =>
    Except.bind (checkedSub w.bal1 w.pool.reserve1) fun a1 =>
    Except.bind (transferOut w.bal1 a1) fun b1 =>
    Except.ok { w with bal0 := b0, bal1 := b1 }
  else Except.error Error.AuthMismatch

/-- Source lines 242-249, `sync()`: owner only; overwrite the reserves
with the current holdings. -/
def sync (w : World) (caller : AccountId) : Except Error World :=
  if caller = w.pool.owner then
    Except.ok { w with pool := update w.pool w.bal0 w.bal1 }
  else Except.error Error.AuthMismatch

/-- Observer: the error of an aborted call, if any. -/
def resultError (r : Except Error World) : Option Error :=
  match r with
  | Except.error e => some e
  | Except.ok _ => none

/-- Observer: the state after a call, with a default for aborted calls. -/
def okWorld (r : Except Error World) (d : World) : World :=
  match r with
  | Except.ok w => w
  | Except.error _ => d

/-- A pool with owner `1`, tokens `2` and `3`, and an empty ledger. -/
def emptyPool : Pool :=
  { owner := 1, token0 := 2, token1 := 3, reserve0 := 0, reserve1 := 0,
    total_supply := 0, balances := fun _ => 0, allowances := fun _ _ => 0 }

/-- A freshly deployed pool holding no tokens; the pool's account id is `4`. -/
def W0 : World := { pool := emptyPool, bal0 := 0, bal1 := 0, selfId := 4 }

/-- A funded pool: reserves `(100, 100)` in sync with its holdings, receipt
supply `1000`. -/
def W100 : World :=
  { pool := { emptyPool with reserve0 := 100, reserve1 := 100, total_supply := 1000 },
    bal0 := 100, bal1 := 100, selfId := 4 }

/-- Bootstrap state that deposits `1000` of each token into a fresh pool. -/
def Wboot1000 : World := { W0 with bal0 := 1000, bal1 := 1000 }

/-- Bootstrap state that deposits `10000` of each token into a fresh pool. -/
def Wboot10000 : World := { W0 with bal0 := 10000, bal1 := 10000 }

/-- Spec section 8's proportional-mint scenario: reserves `(1000, 2000)`,
supply `1000`, deposits `100` and `200` pending. -/
def Wprop : World :=
  { pool := { emptyPool with reserve0 := 1000, reserve1 := 2000, total_supply := 1000 },
    bal0 := 1100, bal1 := 2200, selfId := 4 }

/-- Redemption state: account `7` holds the whole receipt supply `10` of a
pool holding `(60, 40)`. -/
def Wburn : World :=
  { pool := { emptyPool with reserve0 := 60, reserve1 := 40, total_supply := 10,
                             balances := Function.update (fun _ => 0) 7 10 },
    bal0 := 60, bal1 := 40, selfId := 4 }

/-- Rewriting `Except.bind` applied to an `Except.ok`. -/
theorem bind_ok {α β : Type} (a : α) (f : α → Except Error β) :
    Except.bind (Except.ok a) f = f a := rfl

/-- Rewriting `Except.bind` applied to an `Except.error`. -/
theorem bind_error {α β : Type} (e : Error) (f : α → Except Error β) :
    Except.bind (Except.error e : Except Error α) f = Except.error e := rfl

/-- Pushing `Except.bind` under a conditional. -/
theorem bind_ite {α β : Type} (c : Prop) [Decidable c] (x y : Except Error α)
    (f : α → Except Error β) :
    Except.bind (if c then x else y) f = if c then Except.bind x f else Except.bind y f := by
  by_cases h : c <;> simp [h]

/-- The optimistic transfer of one swap output collapses to a single
conditional: skipping a zero output equals transferring zero. -/
theorem optTransfer_eq (bal a : Balance) :
    (if 0 < a then transferOut bal a else Except.ok bal) =
      if a ≤ bal then Except.ok (bal - a) else Except.error Error.InsufficientBalance := by
  rcases Nat.eq_zero_or_pos a with h | h
  · subst h; simp [transferOut]
  · simp [transferOut, h]

/-- The computed swap input never exceeds the re-read balance. -/
theorem computedIn_le (balance reserve amountOut : Balance) :
    computedIn balance reserve amountOut ≤ balance := by
  unfold computedIn
  split
  · exact Nat.sub_le _ _
  · exact Nat.zero_le _

/-- Copy of `mint` with the square-root value abstracted into a parameter,
so that concrete runs can be evaluated by the kernel (`Nat.sqrt` itself is
defined by well-founded recursion and does not reduce definitionally). -/
def mintWith (w : World) (_caller toAcc : AccountId) (s : Nat) : Except Error World :=
  Except.bind (checkedSub w.bal0 w.pool.reserve0) fun amount0 =>
  Except.bind (checkedSub w.bal1 w.pool.reserve1) fun amount1 =>
  Except.bind
    (if w.pool.total_supply = 0 then
      Except.bind (checkedMul amount0 amount1) fun _prod =>
      Except.bind (checkedSub s MINIMUM_LIQUIDITY) fun liq =>
      Except.bind (mintTo w.pool w.selfId MINIMUM_LIQUIDITY) fun p =>
      Except.ok (liq, p)
    else
      Except.bind (checkedMul amount0 w.pool.total_supply) fun n0 =>
      Except.bind (checkedDiv n0 w.pool.reserve0) fun q0 =>
      Except.bind (checkedMul amount1 w.pool.total_supply) fun n1 =>
      Except.bind (checkedDiv n1 w.pool.reserve1) fun q1 =>
      Except.ok (Nat.min q0 q1, w.pool)) fun lp =>
  if 0 < lp.1 then
    Except.bind (mintTo lp.2 toAcc lp.1) fun p2 =>
    Except.ok { w with pool := update p2 w.bal0 w.bal1 }
  else Except.error Error.InsufficientLiquidityMinted

set_option maxRecDepth 16000 in
/-- Running `mint` equals running `mintWith` on the square root of the
product of the pending deposits. -/
theorem mint_eq_mintWith (w : World) (c t : AccountId) :
    mint w c t =
      mintWith w c t
        (Nat.sqrt ((w.bal0 - w.pool.reserve0) * (w.bal1 - w.pool.reserve1))) := by
  simp only [mint, mintWith, checkedSub, checkedMul, bind_ite, bind_ok, bind_error]

/-- Observer: whether a call aborted with `ReentrancyDetected`. -/
def isReentrancyAbort (r : Except Error World) : Bool :=
  match r with
  | Except.error Error.ReentrancyDetected => true
  | _ => false

/-- Eliminating a guard whose failure branch is an error, given a
successful run. -/
theorem ite_ok_elim {α : Type} {c : Prop} [Decidable c] {x : Except Error α} {e : Error}
    {v : α} (h : (if c then x else Except.error e) = Except.ok v) : c ∧ x = Except.ok v := by
  by_cases hc : c
  · rw [if_pos hc] at h
    exact ⟨hc, h⟩
  · rw [if_neg hc] at h
    exact Except.noConfusion h

/-- Eliminating a guard whose success branch is the second one, given a
successful run (shape of `checkedDiv`). -/
theorem ite_err_ok_elim {α : Type} {c : Prop} [Decidable c] {x : Except Error α} {e : Error}
    {v : α} (h : (if c then Except.error e else x) = Except.ok v) : ¬c ∧ x = Except.ok v := by
  by_cases hc : c
  · rw [if_pos hc] at h
    exact Except.noConfusion h
  · rw [if_neg hc] at h
    exact ⟨hc, h⟩

set_option maxRecDepth 16000 in
/-- Characterization of a successful swap: all guards passed, the
fee-adjusted product check held on the re-read balances, and the new state
records those balances as reserves, everything else unchanged. -/
theorem swap_ok_elim (w w' : World) (c a0 a1 t d0 d1 : Nat)
    (h : swap w c a0 a1 t d0 d1 = Except.ok w') :
    a0 ≤ w.bal0 ∧ a1 ≤ w.bal1 ∧
    (0 < a0 ∨ 0 < a1) ∧ a0 < w.pool.reserve0 ∧ a1 < w.pool.reserve1 ∧
    computedIn (w.bal0 - a0 + d0) w.pool.reserve0 a0 * 3 ≤ (w.bal0 - a0 + d0) * 1000 ∧
    computedIn (w.bal1 - a1 + d1) w.pool.reserve1 a1 * 3 ≤ (w.bal1 - a1 + d1) * 1000 ∧
    w.pool.reserve0 * w.pool.reserve1 * 1000 * 1000 ≤
      ((w.bal0 - a0 + d0) * 1000 - computedIn (w.bal0 - a0 + d0) w.pool.reserve0 a0 * 3) *
      ((w.bal1 - a1 + d1) * 1000 - computedIn (w.bal1 - a1 + d1) w.pool.reserve1 a1 * 3) ∧
    w' = { w with pool := update w.pool (w.bal0 - a0 + d0) (w.bal1 - a1 + d1),
                  bal0 := w.bal0 - a0 + d0, bal1 := w.bal1 - a1 + d1 } := by
  simp only [swap, optTransfer_eq, checkedAdd, checkedMul, checkedSub, bind_ite, bind_ok,
    bind_error] at h
  obtain ⟨h1, h⟩ := ite_ok_elim h
  obtain ⟨h2, h⟩ := ite_ok_elim h
  obtain ⟨h3, h⟩ := ite_ok_elim h
  obtain ⟨h4, h⟩ := ite_ok_elim h
  obtain ⟨h5, h⟩ := ite_ok_elim h
  obtain ⟨h6, h⟩ := ite_ok_elim h
  obtain ⟨h7, h⟩ := ite_ok_elim h
  obtain ⟨h8, h⟩ := ite_ok_elim h
  obtain ⟨h9, h⟩ := ite_ok_elim h
  obtain ⟨h10, h⟩ := ite_ok_elim h
  obtain ⟨h11, h⟩ := ite_ok_elim h
  obtain ⟨h12, h⟩ := ite_ok_elim h
  obtain ⟨h13, h⟩ := ite_ok_elim h
  obtain ⟨h14, h⟩ := ite_ok_elim h
  obtain ⟨h15, h⟩ := ite_ok_elim h
  obtain ⟨h16, h⟩ := ite_ok_elim h
  obtain ⟨h17, h⟩ := ite_ok_elim h
  obtain ⟨h18, h⟩ := ite_ok_elim h
  rw [Except.ok.injEq] at h
  subst h
  exact ⟨h3, h4, h1, h2.1, h2.2, h10, h13, h18, rfl⟩

set_option maxRecDepth 16000 in
/-- Forward evaluation of a swap that reaches the fee-adjusted product
check (with all arithmetic inside the `u128` range) and fails it: the call
aborts with `InvariantViolation` (the `"Uniswap: K"` panic). -/
theorem swap_k_fail (w : World) (c a0 a1 t d0 d1 : Nat)
    (h1 : 0 < a0 ∨ 0 < a1)
    (h2 : a0 < w.pool.reserve0) (h3 : a1 < w.pool.reserve1)
    (h4 : a0 ≤ w.bal0) (h5 : a1 ≤ w.bal1)
    (h6 : w.bal0 - a0 + d0 < U128_MOD) (h7 : w.bal1 - a1 + d1 < U128_MOD)
    (h8 : 0 < computedIn (w.bal0 - a0 + d0) w.pool.reserve0 a0 ∨ 0 < a1)
    (h9 : (w.bal0 - a0 + d0) * 1000 < U128_MOD)
    (h10 : (w.bal1 - a1 + d1) * 1000 < U128_MOD)
    (h11 : ((w.bal0 - a0 + d0) * 1000 - computedIn (w.bal0 - a0 + d0) w.pool.reserve0 a0 * 3) *
      ((w.bal1 - a1 + d1) * 1000 - computedIn (w.bal1 - a1 + d1) w.pool.reserve1 a1 * 3) <
      U128_MOD)
    (h12 : w.pool.reserve0 * w.pool.reserve1 * 1000 * 1000 < U128_MOD)
    (hk : ((w.bal0 - a0 + d0) * 1000 - computedIn (w.bal0 - a0 + d0) w.pool.reserve0 a0 * 3) *
      ((w.bal1 - a1 + d1) * 1000 - computedIn (w.bal1 - a1 + d1) w.pool.reserve1 a1 * 3) <
      w.pool.reserve0 * w.pool.reserve1 * 1000 * 1000) :
    swap w c a0 a1 t d0 d1 = Except.error Error.InvariantViolation := by
  have e2 : computedIn (w.bal0 - a0 + d0) w.pool.reserve0 a0 * 3 ≤ (w.bal0 - a0 + d0) * 1000 := by
    calc computedIn (w.bal0 - a0 + d0) w.pool.reserve0 a0 * 3
        ≤ (w.bal0 - a0 + d0) * 3 := Nat.mul_le_mul_right 3 (computedIn_le _ _ _)
      _ ≤ (w.bal0 - a0 + d0) * 1000 := Nat.mul_le_mul_left _ (by norm_num)
  have e1 : computedIn (w.bal0 - a0 + d0) w.pool.reserve0 a0 * 3 < U128_MOD :=
    lt_of_le_of_lt e2 h9
  have e4 : computedIn (w.bal1 - a1 + d1) w.pool.reserve1 a1 * 3 ≤ (w.bal1 - a1 + d1) * 1000 := by
    calc computedIn (w.bal1 - a1 + d1) w.pool.reserve1 a1 * 3
        ≤ (w.bal1 - a1 + d1) * 3 := Nat.mul_le_mul_right 3 (computedIn_le _ _ _)
      _ ≤ (w.bal1 - a1 + d1) * 1000 := Nat.mul_le_mul_left _ (by norm_num)
  have e3 : computedIn (w.bal1 - a1 + d1) w.pool.reserve1 a1 * 3 < U128_MOD :=
    lt_of_le_of_lt e4 h10
  have e6 : w.pool.reserve0 * w.pool.reserve1 * 1000 ≤
      w.pool.reserve0 * w.pool.reserve1 * 1000 * 1000 :=
    Nat.le_mul_of_pos_right _ (by norm_num)
  have e5 : w.pool.reserve0 * w.pool.reserve1 ≤ w.pool.reserve0 * w.pool.reserve1 * 1000 :=
    Nat.le_mul_of_pos_right _ (by norm_num)
  have e7 : w.pool.reserve0 * w.pool.reserve1 < U128_MOD :=
    lt_of_le_of_lt (le_trans e5 e6) h12
  have e8 : w.pool.reserve0 * w.pool.reserve1 * 1000 < U128_MOD := lt_of_le_of_lt e6 h12
  simp only [swap, optTransfer_eq, checkedAdd, checkedMul, checkedSub, bind_ite, bind_ok,
    bind_error]
  rw [if_pos h1, if_pos (And.intro h2 h3), if_pos h4, if_pos h5, if_pos h6, if_pos h7,
    if_pos h8, if_pos h9, if_pos e1, if_pos e2, if_pos h10, if_pos e3, if_pos e4, if_pos h11,
    if_pos e7, if_pos e8, if_pos h12, if_neg (Nat.not_le.mpr hk)]

/-- Liquidity computed by the bootstrap branch of `mint` (source line 147). -/
def bootLiq (w : World) : Balance :=
  Nat.sqrt ((w.bal0 - w.pool.reserve0) * (w.bal1 - w.pool.reserve1)) - MINIMUM_LIQUIDITY

/-- Receipt ledger after a successful bootstrap `mint` to `t`:
`MINIMUM_LIQUIDITY` to the pool's own account, then `bootLiq` to `t`. -/
def bootMintPool (w : World) (t : AccountId) : Pool :=
  { w.pool with
    balances := Function.update
      (Function.update w.pool.balances w.selfId (w.pool.balances w.selfId + MINIMUM_LIQUIDITY))
      t
      ((Function.update w.pool.balances w.selfId
        (w.pool.balances w.selfId + MINIMUM_LIQUIDITY)) t + bootLiq w),
    total_supply := w.pool.total_supply + MINIMUM_LIQUIDITY + bootLiq w }

/-- World after a successful bootstrap `mint` to `t`. -/
def bootMintWorld (w : World) (t : AccountId) : World :=
  { w with pool := update (bootMintPool w t) w.bal0 w.bal1 }

set_option maxRecDepth 16000 in
/-- Characterization of a successful bootstrap mint (zero receipt supply):
the subtractions were in range, the geometric mean covered
`MINIMUM_LIQUIDITY` with a positive remainder, and the final state credits
the remainder to `t` on top of the permanent minimum minted to the pool's
own account. -/
theorem mint_ok_elim_zero (w w' : World) (c t : AccountId)
    (h0 : w.pool.total_supply = 0)
    (h : mint w c t = Except.ok w') :
    w.pool.reserve0 ≤ w.bal0 ∧ w.pool.reserve1 ≤ w.bal1 ∧
    MINIMUM_LIQUIDITY ≤
      Nat.sqrt ((w.bal0 - w.pool.reserve0) * (w.bal1 - w.pool.reserve1)) ∧
    0 < bootLiq w ∧
    w' = bootMintWorld w t := by
  simp only [mint, mintTo, checkedSub, checkedMul, checkedAdd, bind_ite, bind_ok,
    bind_error] at h
  obtain ⟨hs0, h⟩ := ite_ok_elim h
  obtain ⟨hs1, h⟩ := ite_ok_elim h
  rw [if_pos h0] at h
  obtain ⟨hm, h⟩ := ite_ok_elim h
  obtain ⟨hsq, h⟩ := ite_ok_elim h
  obtain ⟨ha1, h⟩ := ite_ok_elim h
  obtain ⟨ha2, h⟩ := ite_ok_elim h
  obtain ⟨hl, h⟩ := ite_ok_elim h
  obtain ⟨ha3, h⟩ := ite_ok_elim h
  obtain ⟨ha4, h⟩ := ite_ok_elim h
  rw [Except.ok.injEq] at h
  subst h
  exact ⟨hs0, hs1, hsq, hl, rfl⟩

/-- Liquidity computed by the proportional branch of `mint` (source
line 150): the more constraining of the two reserve ratios. -/
def posLiq (w : World) : Balance :=
  Nat.min ((w.bal0 - w.pool.reserve0) * w.pool.total_supply / w.pool.reserve0)
    ((w.bal1 - w.pool.reserve1) * w.pool.total_supply / w.pool.reserve1)

/-- Receipt ledger after a successful proportional `mint` to `t`. -/
def posMintPool (w : World) (t : AccountId) : Pool :=
  { w.pool with
    balances := Function.update w.pool.balances t (w.pool.balances t + posLiq w),
    total_supply := w.pool.total_supply + posLiq w }

/-- World after a successful proportional `mint` to `t`. -/
def posMintWorld (w : World) (t : AccountId) : World :=
  { w with pool := update (posMintPool w t) w.bal0 w.bal1 }

set_option maxRecDepth 16000 in
/-- Characterization of a successful proportional mint (nonzero receipt
supply): the deposits were in range, the minimum of the two ratio
computations is positive, and exactly that much is credited to `t`. -/
theorem mint_ok_elim_pos (w w' : World) (c t : AccountId)
    (h0 : w.pool.total_supply ≠ 0)
    (h : mint w c t = Except.ok w') :
    w.pool.reserve0 ≤ w.bal0 ∧ w.pool.reserve1 ≤ w.bal1 ∧
    0 < posLiq w ∧
    w' = posMintWorld w t := by
  simp only [mint, mintTo, checkedSub, checkedMul, checkedDiv, checkedAdd, bind_ite, bind_ok,
    bind_error] at h
  obtain ⟨hs0, h⟩ := ite_ok_elim h
  obtain ⟨hs1, h⟩ := ite_ok_elim h
  rw [if_neg h0] at h
  obtain ⟨hm0, h⟩ := ite_ok_elim h
  obtain ⟨hd0, h⟩ := ite_err_ok_elim h
  obtain ⟨hm1, h⟩ := ite_ok_elim h
  obtain ⟨hd1, h⟩ := ite_err_ok_elim h
  obtain ⟨hl, h⟩ := ite_ok_elim h
  obtain ⟨ha3, h⟩ := ite_ok_elim h
  obtain ⟨ha4, h⟩ := ite_ok_elim h
  rw [Except.ok.injEq] at h
  subst h
  refine ⟨hs0, hs1, hl, ?_⟩
  rfl

/-- Amount of token0 paid out by `burn` to `t` (source line 174). -/
def burnAmount0 (w : World) (t : AccountId) : Balance :=
  w.pool.balances t * w.bal0 / w.pool.total_supply

/-- Amount of token1 paid out by `burn` to `t` (source line 175). -/
def burnAmount1 (w : World) (t : AccountId) : Balance :=
  w.pool.balances t * w.bal1 / w.pool.total_supply

/-- Receipt ledger after a successful `burn` for `t`: the whole balance of
`t` is burned and removed from the supply. -/
def burnPool (w : World) (t : AccountId) : Pool :=
  { w.pool with
    balances := Function.update w.pool.balances t
      (w.pool.balances t - w.pool.balances t),
    total_supply := w.pool.total_supply - w.pool.balances t }

/-- World after a successful `burn` for `t`. -/
def burnWorld (w : World) (t : AccountId) : World :=
  { w with
    pool := update (burnPool w t) (w.bal0 - burnAmount0 w t) (w.bal1 - burnAmount1 w t),
    bal0 := w.bal0 - burnAmount0 w t,
    bal1 := w.bal1 - burnAmount1 w t }

set_option maxRecDepth 16000 in
/-- Characterization of a successful burn: the caller is the redeeming
account, both pro-rata amounts are positive and covered by the holdings,
the whole receipt balance of `t` is burned, and both amounts leave the
pool. -/
theorem burn_ok_elim (w w' : World) (c t : AccountId)
    (h : burn w c t = Except.ok w') :
    c = t ∧ w.pool.total_supply ≠ 0 ∧
    0 < burnAmount0 w t ∧ 0 < burnAmount1 w t ∧
    w.pool.balances t ≤ w.pool.total_supply ∧
    burnAmount0 w t ≤ w.bal0 ∧ burnAmount1 w t ≤ w.bal1 ∧
    w' = burnWorld w t := by
  simp only [burn, burnFrom, transferOut, checkedSub, checkedMul, checkedDiv, bind_ite,
    bind_ok, bind_error] at h
  obtain ⟨hc, h⟩ := ite_ok_elim h
  obtain ⟨hm0, h⟩ := ite_ok_elim h
  obtain ⟨hd0, h⟩ := ite_err_ok_elim h
  obtain ⟨hm1, h⟩ := ite_ok_elim h
  obtain ⟨hd1, h⟩ := ite_err_ok_elim h
  obtain ⟨hp, h⟩ := ite_ok_elim h
  obtain ⟨hb1, h⟩ := ite_ok_elim h
  obtain ⟨hb2, h⟩ := ite_ok_elim h
  obtain ⟨ht0, h⟩ := ite_ok_elim h
  obtain ⟨ht1, h⟩ := ite_ok_elim h
  rw [Except.ok.injEq] at h
  subst h
  refine ⟨hc, hd0, hp.1, hp.2, hb2, ht0, ht1, ?_⟩
  rfl

/-- Forward evaluation of `burn` when it reaches the amount check with a
zero pro-rata amount on either side: the call aborts with
`InsufficientLiquidityBurned`. -/
theorem burn_insufficient (w : World) (c t : AccountId)
    (hc : c = t) (hts : w.pool.total_supply ≠ 0)
    (hm0 : w.pool.balances t * w.bal0 < U128_MOD)
    (hm1 : w.pool.balances t * w.bal1 < U128_MOD)
    (hz : burnAmount0 w t = 0 ∨ burnAmount1 w t = 0) :
    burn w c t = Except.error Error.InsufficientLiquidityBurned := by
  simp only [burn, burnFrom, transferOut, checkedSub, checkedMul, checkedDiv, bind_ite,
    bind_ok, bind_error]
  rw [if_pos hc, if_pos hm0, if_neg hts, if_pos hm1, if_neg hts, if_neg]
  rcases hz with h | h
  · rw [burnAmount0] at h
    intro hcon
    rw [h] at hcon
    exact Nat.lt_irrefl 0 hcon.1
  · rw [burnAmount1] at h
    intro hcon
    rw [h] at hcon
    exact Nat.lt_irrefl 0 hcon.2

set_option maxRecDepth 16000 in
/-- Forward evaluation of `mint` when the token0 holding dropped below the
recorded reserve: the very first checked subtraction underflows and the
call aborts with `ArithmeticUnderflow`. -/
theorem mint_underflow0 (w : World) (c t : AccountId)
    (hlt : w.bal0 < w.pool.reserve0) :
    mint w c t = Except.error Error.ArithmeticUnderflow := by
  simp only [mint, mintTo, checkedSub, checkedMul, checkedDiv, checkedAdd, bind_ite, bind_ok,
    bind_error]
  rw [if_neg (Nat.not_le.mpr hlt)]

set_option maxRecDepth 16000 in
/-- Forward evaluation of `mint` when the token1 holding dropped below the
recorded reserve: the second checked subtraction underflows. -/
theorem mint_underflow1 (w : World) (c t : AccountId)
    (hge : w.pool.reserve0 ≤ w.bal0) (hlt : w.bal1 < w.pool.reserve1) :
    mint w c t = Except.error Error.ArithmeticUnderflow := by
  simp only [mint, mintTo, checkedSub, checkedMul, checkedDiv, checkedAdd, bind_ite, bind_ok,
    bind_error]
  rw [if_pos hge, if_neg (Nat.not_le.mpr hlt)]

/-- Forward evaluation of `burn` when the redeemed receipt balance exceeds
the recorded total supply: the supply decrement in `_burn` underflows. -/
theorem burn_supply_underflow (w : World) (t : AccountId)
    (hts : w.pool.total_supply ≠ 0)
    (hm0 : w.pool.balances t * w.bal0 < U128_MOD)
    (hm1 : w.pool.balances t * w.bal1 < U128_MOD)
    (ha0 : 0 < burnAmount0 w t) (ha1 : 0 < burnAmount1 w t)
    (hgt : w.pool.total_supply < w.pool.balances t) :
    burn w t t = Except.error Error.ArithmeticUnderflow := by
  simp only [burn, burnFrom, transferOut, checkedSub, checkedMul, checkedDiv, bind_ite,
    bind_ok, bind_error]
  rw [burnAmount0] at ha0
  rw [burnAmount1] at ha1
  rw [if_pos (trivial : True), if_pos hm0, if_neg hts, if_pos hm1, if_neg hts,
    if_pos (And.intro ha0 ha1), if_pos (Nat.le_refl _), if_neg (Nat.not_le.mpr hgt)]

/-- Forward evaluation of `skim` when the token0 holding dropped below the
recorded reserve: the excess computation underflows. -/
theorem skim_underflow (w : World) (c t : AccountId)
    (hc : c = w.pool.owner) (hlt : w.bal0 < w.pool.reserve0) :
    skim w c t = Except.error Error.ArithmeticUnderflow := by
  simp only [skim, transferOut, checkedSub, bind_ite, bind_ok, bind_error]
  rw [if_pos hc, if_neg (Nat.not_le.mpr hlt)]

/-- A conditional never aborts with `ReentrancyDetected` when neither
branch does. -/
theorem isR_ite (c : Prop) [Decidable c] (x y : Except Error World)
    (hx : isReentrancyAbort x = false) (hy : isReentrancyAbort y = false) :
    isReentrancyAbort (if c then x else y) = false := by
  by_cases h : c
  · rw [if_pos h]
    exact hx
  · rw [if_neg h]
    exact hy

set_option maxRecDepth 16000 in
/-- No run of `swap` aborts with `ReentrancyDetected`. -/
theorem swap_no_reentrancy (w : World) (c a0 a1 t d0 d1 : Nat) :
    isReentrancyAbort (swap w c a0 a1 t d0 d1) = false := by
  simp only [swap, optTransfer_eq, checkedAdd, checkedMul, checkedSub, bind_ite, bind_ok,
    bind_error]
  repeat
    first
      | rfl
      | apply isR_ite

set_option maxRecDepth 16000 in
/-- No run of `mint` aborts with `ReentrancyDetected`. -/
theorem mint_no_reentrancy (w : World) (c t : AccountId) :
    isReentrancyAbort (mint w c t) = false := by
  simp only [mint, mintTo, checkedSub, checkedMul, checkedDiv, checkedAdd, bind_ite, bind_ok,
    bind_error]
  repeat
    first
      | rfl
      | apply isR_ite

set_option maxRecDepth 16000 in
/-- No run of `burn` aborts with `ReentrancyDetected`. -/
theorem burn_no_reentrancy (w : World) (c t : AccountId) :
    isReentrancyAbort (burn w c t) = false := by
  simp only [burn, burnFrom, transferOut, checkedSub, checkedMul, checkedDiv, bind_ite,
    bind_ok, bind_error]
  repeat
    first
      | rfl
      | apply isR_ite

set_option maxRecDepth 16000 in
/-- No run of `skim` aborts with `ReentrancyDetected`. -/
theorem skim_no_reentrancy (w : World) (c t : AccountId) :
    isReentrancyAbort (skim w c t) = false := by
  simp only [skim, transferOut, checkedSub, bind_ite, bind_ok, bind_error]
  repeat
    first
      | rfl
      | apply isR_ite

/-- No run of `sync` aborts with `ReentrancyDetected`. -/
theorem sync_no_reentrancy (w : World) (c : AccountId) :
    isReentrancyAbort (sync w c) = false := by
  simp only [sync]
  repeat
    first
      | rfl
      | apply isR_ite

/-- Pool state after the successful concrete swap used by the witnesses:
`swap(amount0Out = 0, amount1Out = 1, to = 7)` on `W100` with a callback
deposit of `2` token0. -/
def Wafter : World := okWorld (swap W100 9 0 1 7 2 0) W0

/-- C1.  For every successful `swap(amount0Out, amount1Out, to)`, with
`balance0`/`balance1` the balances re-read after the optimistic transfers
(recorded as the new reserves by `update`) and `amount0In`/`amount1In` the
computed inputs, the fee-adjusted product check
`(balance0 * 1000 - 3 * amount0In) * (balance1 * 1000 - 3 * amount1In) ≥
reserve0 * reserve1 * 1000 * 1000` holds (with both subtractions in
range), and consequently the product of the reserves recorded after the
swap is at least the product before it; conversely a swap that reaches the
K-check (all guards passed, arithmetic in the `u128` range) with the
inequality false aborts with `InvariantViolation`. -/
theorem swap_fee_adjusted_invariant (w w' : World) (c a0 a1 t d0 d1 : Nat) :
    (swap w c a0 a1 t d0 d1 = Except.ok w' →
      3 * computedIn w'.pool.reserve0 w.pool.reserve0 a0 ≤ w'.pool.reserve0 * 1000 ∧
      3 * computedIn w'.pool.reserve1 w.pool.reserve1 a1 ≤ w'.pool.reserve1 * 1000 ∧
      w.pool.reserve0 * w.pool.reserve1 * 1000 * 1000 ≤
        (w'.pool.reserve0 * 1000 - 3 * computedIn w'.pool.reserve0 w.pool.reserve0 a0) *
        (w'.pool.reserve1 * 1000 - 3 * computedIn w'.pool.reserve1 w.pool.reserve1 a1) ∧
      w.pool.reserve0 * w.pool.reserve1 ≤ w'.pool.reserve0 * w'.pool.reserve1) ∧
    ((0 < a0 ∨ 0 < a1) → a0 < w.pool.reserve0 → a1 < w.pool.reserve1 →
      a0 ≤ w.bal0 → a1 ≤ w.bal1 →
      w.bal0 - a0 + d0 < U128_MOD → w.bal1 - a1 + d1 < U128_MOD →
      (0 < computedIn (w.bal0 - a0 + d0) w.pool.reserve0 a0 ∨ 0 < a1) →
      (w.bal0 - a0 + d0) * 1000 < U128_MOD →
      (w.bal1 - a1 + d1) * 1000 < U128_MOD →
      ((w.bal0 - a0 + d0) * 1000 - computedIn (w.bal0 - a0 + d0) w.pool.reserve0 a0 * 3) *
        ((w.bal1 - a1 + d1) * 1000 - computedIn (w.bal1 - a1 + d1) w.pool.reserve1 a1 * 3) <
        U128_MOD →
      w.pool.reserve0 * w.pool.reserve1 * 1000 * 1000 < U128_MOD →
      ((w.bal0 - a0 + d0) * 1000 - computedIn (w.bal0 - a0 + d0) w.pool.reserve0 a0 * 3) *
        ((w.bal1 - a1 + d1) * 1000 - computedIn (w.bal1 - a1 + d1) w.pool.reserve1 a1 * 3) <
        w.pool.reserve0 * w.pool.reserve1 * 1000 * 1000 →
      swap w c a0 a1 t d0 d1 = Except.error Error.InvariantViolation) := by
  constructor
  · intro h
    obtain ⟨hb0, hb1, hg, hr0, hr1, hc0, hc1, hK, hw⟩ := swap_ok_elim w w' c a0 a1 t d0 d1 h
    subst hw
    simp only [update]
    rw [Nat.mul_comm 3 (computedIn (w.bal0 - a0 + d0) w.pool.reserve0 a0),
      Nat.mul_comm 3 (computedIn (w.bal1 - a1 + d1) w.pool.reserve1 a1)]
    refine ⟨hc0, hc1, hK, ?_⟩
    have hle : ((w.bal0 - a0 + d0) * 1000 -
        computedIn (w.bal0 - a0 + d0) w.pool.reserve0 a0 * 3) *
        ((w.bal1 - a1 + d1) * 1000 -
          computedIn (w.bal1 - a1 + d1) w.pool.reserve1 a1 * 3) ≤
        ((w.bal0 - a0 + d0) * 1000) * ((w.bal1 - a1 + d1) * 1000) :=
      Nat.mul_le_mul (Nat.sub_le _ _) (Nat.sub_le _ _)
    have h2 := le_trans hK hle
    have e1 : ((w.bal0 - a0 + d0) * 1000) * ((w.bal1 - a1 + d1) * 1000) =
        ((w.bal0 - a0 + d0) * (w.bal1 - a1 + d1)) * (1000 * 1000) := by ring
    have e2 : w.pool.reserve0 * w.pool.reserve1 * 1000 * 1000 =
        (w.pool.reserve0 * w.pool.reserve1) * (1000 * 1000) := by ring
    rw [e1, e2] at h2
    exact Nat.le_of_mul_le_mul_right h2 (by norm_num)
  · intro h1 h2 h3 h4 h5 h6 h7 h8 h9 h10 h11 h12 hk
    exact swap_k_fail w c a0 a1 t d0 d1 h1 h2 h3 h4 h5 h6 h7 h8 h9 h10 h11 h12 hk

/-- Witness for C1: on the funded pool `W100`, the swap paying `2` token0
in for `1` token1 out succeeds and the recorded reserve product does not
decrease; the swap taking `10` token1 out with no input reaches the
K-check and aborts with `InvariantViolation`. -/
theorem swap_fee_adjusted_invariant_witness :
    (swap W100 9 0 1 7 2 0 = Except.ok Wafter ∧
      W100.pool.reserve0 * W100.pool.reserve1 ≤
        Wafter.pool.reserve0 * Wafter.pool.reserve1) ∧
    swap W100 9 0 10 7 0 0 = Except.error Error.InvariantViolation :=
  ⟨⟨rfl, ((swap_fee_adjusted_invariant W100 Wafter 9 0 1 7 2 0).1 rfl).2.2.2⟩,
    (swap_fee_adjusted_invariant W100 W0 9 0 10 7 0 0).2 (by decide) (by decide) (by decide)
      (by decide) (by decide) (by decide) (by decide) (by decide) (by decide) (by decide)
      (by decide) (by decide) (by decide)⟩

/-- C2 (code bug).  With both computed inputs zero but `amount1Out`
positive, the input guard of source line 223 — written
`amount0In > 0 || amount1Out > 0` instead of the intended
`amount1In > 0` — passes, so the call proceeds to the invariant check and
aborts with `InvariantViolation` (`"Uniswap: K"`) rather than with
`InsufficientInputAmount` as the spec requires: here
`swap(0, 10, 7)` on reserves `(100, 100)` and holdings `(100, 100)` with
no callback deposit computes `amount0In = amount1In = 0` yet fails with
the K error. -/
theorem swap_zero_input_reaches_k_check :
    computedIn (W100.bal0 - 0 + 0) W100.pool.reserve0 0 = 0 ∧
    computedIn (W100.bal1 - 10 + 0) W100.pool.reserve1 10 = 0 ∧
    swap W100 9 0 10 7 0 0 = Except.error Error.InvariantViolation ∧
    (decide (resultError (swap W100 9 0 10 7 0 0) =
      some Error.InsufficientInputAmount)) = false :=
  ⟨rfl, rfl, rfl, rfl⟩

/-- C6 (code bug).  The recipient check of source line 197 is commented
out, so a swap whose recipient is token0's own contract address is not
rejected with `InvalidRecipient`: on `W100` (whose token0 account id is
`2`) the swap `swap(0, 1, to = 2)` with `3` token0 paid in succeeds. -/
theorem swap_to_token_address_succeeds :
    W100.pool.token0 = 2 ∧ (swap W100 9 0 1 2 3 0).isOk = true :=
  ⟨rfl, rfl⟩

/-- C8 (code bug).  The contract has no reentrancy lock: no state of the
pool records a lock, and no run of any mutating entry point
(`swap`, `mint`, `burn`, `skim`, `sync`) can abort with
`ReentrancyDetected`; moreover a swap executed on the intermediate state a
Token Ledger callback observes mid-transfer (holdings `(100, 99)` of
`W100` after the optimistic output transfer of an outer swap) succeeds
and mutates the reserves like any fresh call. -/
theorem no_reentrancy_error_possible :
    (∀ (w : World) (c a0 a1 t d0 d1 : Nat),
      isReentrancyAbort (swap w c a0 a1 t d0 d1) = false) ∧
    (∀ (w : World) (c t : AccountId), isReentrancyAbort (mint w c t) = false) ∧
    (∀ (w : World) (c t : AccountId), isReentrancyAbort (burn w c t) = false) ∧
    (∀ (w : World) (c t : AccountId), isReentrancyAbort (skim w c t) = false) ∧
    (∀ (w : World) (c : AccountId), isReentrancyAbort (sync w c) = false) ∧
    (swap { W100 with bal1 := 99 } 8 0 1 5 3 0).isOk = true :=
  ⟨swap_no_reentrancy, mint_no_reentrancy, burn_no_reentrancy, skim_no_reentrancy,
    sync_no_reentrancy, rfl⟩

/-- C9 (counterexample).  The claim "every call with
`amount0Out ≥ reserve0` or `amount1Out ≥ reserve1` fails with
`InsufficientLiquidity`" is false as stated: on a fresh pool with
`reserve0 = 0`, the call `swap(0, 0, 7)` satisfies
`amount0Out ≥ reserve0`, yet the output guard fires first and the call
fails with `InsufficientOutputAmount`. -/
theorem swap_insufficient_liquidity_counterexample :
    resultError (swap W0 9 0 0 7 0 0) = some Error.InsufficientOutputAmount ∧
    W0.pool.reserve0 ≤ 0 ∧
    (decide (resultError (swap W0 9 0 0 7 0 0) = some Error.InsufficientLiquidity)) =
      false :=
  ⟨rfl, Nat.le_refl 0, rfl⟩

/-- C9 (amended).  Every call with `amount0Out ≥ reserve0` or
`amount1Out ≥ reserve1` in which at least one output is positive fails
with `InsufficientLiquidity`; when both outputs are zero it fails with
`InsufficientOutputAmount` instead.  In either case the call aborts before
any transfer, so the pool state is unchanged (an aborted call reverts). -/
theorem swap_insufficient_liquidity_amended (w : World) (c a0 a1 t d0 d1 : Nat) :
    ((w.pool.reserve0 ≤ a0 ∨ w.pool.reserve1 ≤ a1) → (0 < a0 ∨ 0 < a1) →
      swap w c a0 a1 t d0 d1 = Except.error Error.InsufficientLiquidity) ∧
    swap w c 0 0 t d0 d1 = Except.error Error.InsufficientOutputAmount := by
  constructor
  · intro hge hpos
    simp only [swap]
    rw [if_pos hpos, if_neg]
    rcases hge with h | h
    · intro hcon
      exact absurd hcon.1 (Nat.not_lt.mpr h)
    · intro hcon
      exact absurd hcon.2 (Nat.not_lt.mpr h)
  · simp only [swap]
    rw [if_neg]
    intro hcon
    rcases hcon with h | h <;> exact Nat.lt_irrefl 0 h

/-- Witness for the amended C9: requesting `amount0Out = 100` from the
pool `W100` with `reserve0 = 100` fails with `InsufficientLiquidity`. -/
theorem swap_insufficient_liquidity_amended_witness :
    (W100.pool.reserve0 ≤ 100 ∨ W100.pool.reserve1 ≤ 0) ∧ ((0 : Nat) < 100 ∨ (0 : Nat) < 0) ∧
    swap W100 9 100 0 7 0 0 = Except.error Error.InsufficientLiquidity :=
  ⟨Or.inl (by decide), Or.inl (by decide),
    (swap_insufficient_liquidity_amended W100 9 100 0 7 0 0).1 (Or.inl (by decide))
      (Or.inl (by decide))⟩

/-- C10.  A successful swap changes only the recorded reserves among the
pool's stored fields: owner, the two token references, the receipt total
supply, the receipt balances and the allowances are all unchanged (the
pool's account id as well). -/
theorem swap_reserves_only_frame (w w' : World) (c a0 a1 t d0 d1 : Nat)
    (h : swap w c a0 a1 t d0 d1 = Except.ok w') :
    w'.pool.owner = w.pool.owner ∧ w'.pool.token0 = w.pool.token0 ∧
    w'.pool.token1 = w.pool.token1 ∧ w'.pool.total_supply = w.pool.total_supply ∧
    w'.pool.balances = w.pool.balances ∧ w'.pool.allowances = w.pool.allowances ∧
    w'.selfId = w.selfId := by
  obtain ⟨hb0, hb1, hg, hr0, hr1, hc0, hc1, hK, hw⟩ := swap_ok_elim w w' c a0 a1 t d0 d1 h
  subst hw
  exact ⟨rfl, rfl, rfl, rfl, rfl, rfl, rfl⟩

/-- Witness for C10: the successful concrete swap on `W100` leaves every
stored field except the reserves unchanged. -/
theorem swap_reserves_only_frame_witness :
    Wafter.pool.owner = W100.pool.owner ∧ Wafter.pool.token0 = W100.pool.token0 ∧
    Wafter.pool.token1 = W100.pool.token1 ∧
    Wafter.pool.total_supply = W100.pool.total_supply ∧
    Wafter.pool.balances = W100.pool.balances ∧
    Wafter.pool.allowances = W100.pool.allowances ∧
    Wafter.selfId = W100.selfId :=
  swap_reserves_only_frame W100 Wafter 9 0 1 7 2 0 rfl

/-- Square root of the bootstrap boundary product `1000 * 1000`. -/
theorem sqrt_1000000 : Nat.sqrt 1000000 = 1000 := by
  rw [show (1000000 : Nat) = 1000 * 1000 by norm_num]
  exact Nat.sqrt_eq 1000

/-- Square root of the bootstrap success product `10000 * 10000`. -/
theorem sqrt_100000000 : Nat.sqrt 100000000 = 10000 := by
  rw [show (100000000 : Nat) = 10000 * 10000 by norm_num]
  exact Nat.sqrt_eq 10000

/-- C3.  On a bootstrap mint (zero receipt supply) to an account other
than the pool itself, the depositor is credited exactly
`floor(sqrt(amount0 * amount1)) - MINIMUM_LIQUIDITY` with
`amount_i = balance_i - reserve_i`, and `MINIMUM_LIQUIDITY` further units
are minted to the pool's own account (an address no contract path can
spend from); `MINIMUM_LIQUIDITY = 1000`, and depositing
`amount0 = amount1 = 1000` yields liquidity `sqrt(10^6) - 1000 = 0`, so
that call fails with `InsufficientLiquidityMinted`. -/
theorem mint_bootstrap_spec :
    (∀ (w w' : World) (c t : AccountId),
      w.pool.total_supply = 0 → t ≠ w.selfId →
      mint w c t = Except.ok w' →
      w'.pool.balances t = w.pool.balances t +
        (Nat.sqrt ((w.bal0 - w.pool.reserve0) * (w.bal1 - w.pool.reserve1)) -
          MINIMUM_LIQUIDITY) ∧
      w'.pool.balances w.selfId = w.pool.balances w.selfId + MINIMUM_LIQUIDITY ∧
      w'.pool.total_supply = w.pool.total_supply + MINIMUM_LIQUIDITY +
        (Nat.sqrt ((w.bal0 - w.pool.reserve0) * (w.bal1 - w.pool.reserve1)) -
          MINIMUM_LIQUIDITY)) ∧
    MINIMUM_LIQUIDITY = 1000 ∧
    Nat.sqrt ((Wboot1000.bal0 - Wboot1000.pool.reserve0) *
      (Wboot1000.bal1 - Wboot1000.pool.reserve1)) - MINIMUM_LIQUIDITY = 0 ∧
    resultError (mint Wboot1000 5 7) = some Error.InsufficientLiquidityMinted := by
  have harg : (Wboot1000.bal0 - Wboot1000.pool.reserve0) *
      (Wboot1000.bal1 - Wboot1000.pool.reserve1) = 1000000 := rfl
  refine ⟨?_, rfl, ?_, ?_⟩
  · intro w w' c t h0 ht h
    obtain ⟨hs0, hs1, hsq, hl, hw⟩ := mint_ok_elim_zero w w' c t h0 h
    subst hw
    simp only [bootMintWorld, bootMintPool, bootLiq, update]
    refine ⟨?_, ?_, ?_⟩
    · rw [Function.update_same, Function.update_noteq ht]
    · rw [Function.update_noteq (Ne.symm ht), Function.update_same]
    · trivial
  · rw [harg, sqrt_1000000]
    rfl
  · rw [mint_eq_mintWith, harg, sqrt_1000000]
    rfl

/-- Witness for C3: depositing `10000` of each token into a fresh pool
succeeds, crediting `sqrt(10^8) - 1000 = 9000` to the depositor and `1000`
to the pool's own account. -/
theorem mint_bootstrap_spec_witness :
    Wboot10000.pool.total_supply = 0 ∧ (7 : Nat) ≠ Wboot10000.selfId ∧
    (okWorld (mint Wboot10000 5 7) W0).pool.balances 7 =
      Wboot10000.pool.balances 7 +
      (Nat.sqrt ((Wboot10000.bal0 - Wboot10000.pool.reserve0) *
        (Wboot10000.bal1 - Wboot10000.pool.reserve1)) - MINIMUM_LIQUIDITY) ∧
    (okWorld (mint Wboot10000 5 7) W0).pool.balances Wboot10000.selfId =
      Wboot10000.pool.balances Wboot10000.selfId + MINIMUM_LIQUIDITY ∧
    (okWorld (mint Wboot10000 5 7) W0).pool.balances 7 = 9000 := by
  have harg : (Wboot10000.bal0 - Wboot10000.pool.reserve0) *
      (Wboot10000.bal1 - Wboot10000.pool.reserve1) = 100000000 := rfl
  have hsq : Nat.sqrt ((Wboot10000.bal0 - Wboot10000.pool.reserve0) *
      (Wboot10000.bal1 - Wboot10000.pool.reserve1)) = 10000 := by
    rw [harg, sqrt_100000000]
  have hrun : mint Wboot10000 5 7 = Except.ok (okWorld (mint Wboot10000 5 7) W0) := by
    rw [mint_eq_mintWith, hsq]
    rfl
  obtain ⟨e1, e2, e3⟩ := mint_bootstrap_spec.1 Wboot10000
    (okWorld (mint Wboot10000 5 7) W0) 5 7 rfl (by decide) hrun
  refine ⟨rfl, by decide, e1, e2, ?_⟩
  rw [e1, hsq]
  rfl

/-- C5.  On a proportional mint (nonzero receipt supply), the depositor is
credited exactly
`min(amount0 * total_supply / reserve0, amount1 * total_supply / reserve1)`
with `amount_i = balance_i - reserve_i`, and never more than either ratio
computation. -/
theorem mint_proportional_spec (w w' : World) (c t : AccountId)
    (h0 : w.pool.total_supply ≠ 0)
    (h : mint w c t = Except.ok w') :
    w'.pool.balances t = w.pool.balances t +
      Nat.min ((w.bal0 - w.pool.reserve0) * w.pool.total_supply / w.pool.reserve0)
        ((w.bal1 - w.pool.reserve1) * w.pool.total_supply / w.pool.reserve1) ∧
    w'.pool.balances t - w.pool.balances t ≤
      (w.bal0 - w.pool.reserve0) * w.pool.total_supply / w.pool.reserve0 ∧
    w'.pool.balances t - w.pool.balances t ≤
      (w.bal1 - w.pool.reserve1) * w.pool.total_supply / w.pool.reserve1 := by
  obtain ⟨hs0, hs1, hl, hw⟩ := mint_ok_elim_pos w w' c t h0 h
  subst hw
  simp only [posMintWorld, posMintPool, posLiq, update]
  rw [Function.update_same, Nat.add_sub_cancel_left]
  exact ⟨rfl, Nat.min_le_left _ _, Nat.min_le_right _ _⟩

/-- Witness for C5: on reserves `(1000, 2000)` with supply `1000` and
deposits `(100, 200)`, the mint succeeds and credits
`min(100 * 1000 / 1000, 200 * 1000 / 2000) = 100`. -/
theorem mint_proportional_spec_witness :
    Wprop.pool.total_supply ≠ 0 ∧
    (okWorld (mint Wprop 9 7) W0).pool.balances 7 = Wprop.pool.balances 7 +
      Nat.min ((Wprop.bal0 - Wprop.pool.reserve0) * Wprop.pool.total_supply /
          Wprop.pool.reserve0)
        ((Wprop.bal1 - Wprop.pool.reserve1) * Wprop.pool.total_supply /
          Wprop.pool.reserve1) ∧
    (okWorld (mint Wprop 9 7) W0).pool.balances 7 = 100 :=
  ⟨by decide,
    (mint_proportional_spec Wprop (okWorld (mint Wprop 9 7) W0) 9 7 (by decide) rfl).1,
    rfl⟩

/-- C4.  A successful `burn(to)` requires the caller to be `to`, pays out
`amount_i = liquidity * balance_i / total_supply` of each token with
`liquidity` the whole receipt balance of `to` (which is burned down to
zero and removed from the supply); and a burn that reaches the amount
check with either pro-rata amount zero aborts with
`InsufficientLiquidityBurned`. -/
theorem burn_proportional_spec :
    (∀ (w w' : World) (c t : AccountId),
      burn w c t = Except.ok w' →
      c = t ∧
      w'.pool.balances t = 0 ∧
      w'.pool.total_supply = w.pool.total_supply - w.pool.balances t ∧
      w'.bal0 = w.bal0 - w.pool.balances t * w.bal0 / w.pool.total_supply ∧
      w'.bal1 = w.bal1 - w.pool.balances t * w.bal1 / w.pool.total_supply) ∧
    (∀ (w : World) (c t : AccountId),
      c = t → w.pool.total_supply ≠ 0 →
      w.pool.balances t * w.bal0 < U128_MOD →
      w.pool.balances t * w.bal1 < U128_MOD →
      (w.pool.balances t * w.bal0 / w.pool.total_supply = 0 ∨
        w.pool.balances t * w.bal1 / w.pool.total_supply = 0) →
      burn w c t = Except.error Error.InsufficientLiquidityBurned) := by
  constructor
  · intro w w' c t h
    obtain ⟨hc, hts, ha0, ha1, hL, hb0, hb1, hw⟩ := burn_ok_elim w w' c t h
    subst hw
    simp only [burnWorld, burnPool, burnAmount0, burnAmount1, update]
    rw [Function.update_same, Nat.sub_self]
    exact ⟨hc, rfl, trivial, trivial, trivial⟩
  · intro w c t hc hts hm0 hm1 hz
    exact burn_insufficient w c t hc hts hm0 hm1 hz

/-- State with receipt balance `1` for account `7` against supply `10` and
tiny holdings, so a burn's pro-rata amounts truncate to zero. -/
def WburnFail : World :=
  { pool := { emptyPool with total_supply := 10,
                             balances := Function.update (fun _ => 0) 7 1 },
    bal0 := 5, bal1 := 5, selfId := 4 }

/-- Witness for C4: account `7` redeeming the whole supply of `Wburn`
empties its receipt balance and withdraws the pro-rata amounts, while the
dust position of `WburnFail` fails with `InsufficientLiquidityBurned`. -/
theorem burn_proportional_spec_witness :
    (okWorld (burn Wburn 7 7) W0).pool.balances 7 = 0 ∧
    (okWorld (burn Wburn 7 7) W0).bal0 =
      Wburn.bal0 - Wburn.pool.balances 7 * Wburn.bal0 / Wburn.pool.total_supply ∧
    burn WburnFail 7 7 = Except.error Error.InsufficientLiquidityBurned :=
  ⟨(burn_proportional_spec.1 Wburn (okWorld (burn Wburn 7 7) W0) 7 7 rfl).2.1,
    (burn_proportional_spec.1 Wburn (okWorld (burn Wburn 7 7) W0) 7 7 rfl).2.2.2.1,
    burn_proportional_spec.2 WburnFail 7 7 rfl (by decide) (by decide) (by decide)
      (Or.inl (by decide))⟩

/-- C7.  All arithmetic of the public operations is checked
(spec-modelled: the build profile fixing Rust's overflow behavior is not
under `src/`, and spec section 7 mandates reported, never wrapped,
arithmetic): an underflowing subtraction aborts the operation with
`ArithmeticUnderflow` — shown for `mint` with either holding below its
reserve, for the supply decrement of the internal `_burn` helper, and for
`skim`'s excess computation — and a successful `mint`/`burn` implies its
subtractions were in range, so no operation completes with a wrapped
result. -/
theorem checked_arithmetic_spec :
    (∀ (w : World) (c t : AccountId), w.bal0 < w.pool.reserve0 →
      mint w c t = Except.error Error.ArithmeticUnderflow) ∧
    (∀ (w : World) (c t : AccountId), w.pool.reserve0 ≤ w.bal0 →
      w.bal1 < w.pool.reserve1 →
      mint w c t = Except.error Error.ArithmeticUnderflow) ∧
    (∀ (w : World) (t : AccountId), w.pool.total_supply ≠ 0 →
      w.pool.balances t * w.bal0 < U128_MOD →
      w.pool.balances t * w.bal1 < U128_MOD →
      0 < w.pool.balances t * w.bal0 / w.pool.total_supply →
      0 < w.pool.balances t * w.bal1 / w.pool.total_supply →
      w.pool.total_supply < w.pool.balances t →
      burn w t t = Except.error Error.ArithmeticUnderflow) ∧
    (∀ (w : World) (c t : AccountId), c = w.pool.owner → w.bal0 < w.pool.reserve0 →
      skim w c t = Except.error Error.ArithmeticUnderflow) ∧
    (∀ (w w' : World) (c t : AccountId), mint w c t = Except.ok w' →
      w.pool.reserve0 ≤ w.bal0 ∧ w.pool.reserve1 ≤ w.bal1) ∧
    (∀ (w w' : World) (c t : AccountId), burn w c t = Except.ok w' →
      w.pool.balances t ≤ w.pool.total_supply) := by
  refine ⟨mint_underflow0, mint_underflow1, ?_, skim_underflow, ?_, ?_⟩
  · intro w t hts hm0 hm1 ha0 ha1 hgt
    exact burn_supply_underflow w t hts hm0 hm1 ha0 ha1 hgt
  · intro w w' c t h
    by_cases h0 : w.pool.total_supply = 0
    · obtain ⟨hs0, hs1, _, _, _⟩ := mint_ok_elim_zero w w' c t h0 h
      exact ⟨hs0, hs1⟩
    · obtain ⟨hs0, hs1, _, _⟩ := mint_ok_elim_pos w w' c t h0 h
      exact ⟨hs0, hs1⟩
  · intro w w' c t h
    exact (burn_ok_elim w w' c t h).2.2.2.2.1

/-- State whose token holdings dropped below the recorded reserves. -/
def Wuf : World :=
  { pool := { emptyPool with reserve0 := 5, reserve1 := 5 }, bal0 := 0, bal1 := 0,
    selfId := 4 }

/-- State whose receipt balance for `7` exceeds the recorded supply. -/
def WburnOver : World :=
  { pool := { emptyPool with total_supply := 5,
                             balances := Function.update (fun _ => 0) 7 10 },
    bal0 := 10, bal1 := 10, selfId := 4 }

/-- Witness for C7: a mint against a drained pool and a burn of a receipt
balance exceeding the supply both abort with `ArithmeticUnderflow`, a skim
on the drained pool does too, and the successful runs on `Wprop`/`Wburn`
had all subtractions in range. -/
theorem checked_arithmetic_spec_witness :
    Wuf.bal0 < Wuf.pool.reserve0 ∧
    mint Wuf 5 7 = Except.error Error.ArithmeticUnderflow ∧
    burn WburnOver 7 7 = Except.error Error.ArithmeticUnderflow ∧
    skim Wuf 1 7 = Except.error Error.ArithmeticUnderflow ∧
    (Wprop.pool.reserve0 ≤ Wprop.bal0 ∧ Wprop.pool.reserve1 ≤ Wprop.bal1) ∧
    Wburn.pool.balances 7 ≤ Wburn.pool.total_supply :=
  ⟨by decide,
    checked_arithmetic_spec.1 Wuf 5 7 (by decide),
    checked_arithmetic_spec.2.2.1 WburnOver 7 (by decide) (by decide) (by decide)
      (by decide) (by decide) (by decide),
    checked_arithmetic_spec.2.2.2.1 Wuf 1 7 rfl (by decide),
    checked_arithmetic_spec.2.2.2.2.1 Wprop (okWorld (mint Wprop 9 7) W0) 9 7 rfl,
    checked_arithmetic_spec.2.2.2.2.2 Wburn (okWorld (burn Wburn 7 7) W0) 7 7 rfl⟩

end UniswapPair
